import Mathlib

/-!
Shallow embedding of the AxReg → PEP document-ingestion job
(`src/main.ts`, `src/errorLogger.ts`, `src/db.ts`, `src/debugReport.ts`).

Instants are modelled as `Int` milliseconds since the epoch (what Luxon's
`DateTime` comparisons and `toMillis` reduce to).  Database tables are
modelled as lists of rows; database faults are injected through explicit
oracles so that the error-handling paths of `main` can be exercised.
-/

namespace AxReg

/-- Error reason codes passed to `logProcessingError` in the source. -/
inductive Reason where
  | NO_CREATED_AT
  | NO_CPF
  | NO_ATENDIMENTO
  | RM_KEYS_EMPTY
  | DOWNLOAD_FAIL
  | SQL_FAIL
  | PROC_FAIL
  | PATIENT_FETCH_FAIL
  deriving DecidableEq, Repr

/-- One record appended to the durable error logs (`logProcessingError`
payload, restricted to the identifying fields). -/
structure LogEntry where
  reason : Reason
  patientId : Nat
  pdfId : Nat
  procedureId : Nat
  deriving DecidableEq, Repr

/-- `PatientPdfInfo` from `main.ts`: a document descriptor attached to a
patient.  `created_at` is optional because the code guards `if (!created)`. -/
structure PdfInfo where
  id : Nat
  procedure_id : Nat
  name : String
  type : String
  created_at : Option Int
  deriving DecidableEq, Repr

/-- `PatientResponseData` from `main.ts`. -/
structure PatientData where
  id : Nat
  name : String
  cpf : Option String
  pdf : Option (List PdfInfo)
  deriving DecidableEq, Repr

/-- `Procedure` from `main.ts`: `patient_id` is `number | null`. -/
structure Procedure where
  id : Nat
  patient_id : Option Nat
  deriving DecidableEq, Repr

/-- One row of the destination table `SZARQUIVO` (the fields the job
writes; `CODCOLIGADA` is always 1 and `DATAINCLUSAO`/`REC*` are ambient). -/
structure StorageRow where
  idArquivo : Int
  codPaciente : String
  codAtendimento : String
  nomeArquivo : String
  descricao : String
  arquivo : String
  deriving DecidableEq, Repr

/-- The database state the job reads and writes: the `GAUTOINC` counter row
for `IDARQUIVO`, the `SZARQUIVO` rows, and the `ZMDIDAXREG` dedup ids. -/
structure DBState where
  counter : Int
  szarquivo : List StorageRow
  zmd : List Nat
  deriving DecidableEq, Repr

/-- `ISNULL(MAX(IDARQUIVO), 0)` over `SZARQUIVO`. -/
def maxSZ (rows : List StorageRow) : Int :=
  rows.foldr (fun r m => max r.idArquivo m) 0

/-- Result columns of the reservation query in `reservarProximoIdArquivo`. -/
structure ReservaResult where
  idArquivo : Int
  gautoincAntes : Int
  gautoincDepois : Int
  maxSzAntes : Int
  deriving DecidableEq, Repr

/-- `reservarProximoIdArquivo` (`main.ts`): reads the counter (`@Atual`) and
the physical maximum (`@MaxSZ`), sets
`@Next = CASE WHEN @MaxSZ >= @Atual THEN @MaxSZ + 1 ELSE @Atual + 1 END`,
writes the counter back to `@Next`, and returns the diagnostic row. -/
def reservarProximoIdArquivo (s : DBState) : ReservaResult × DBState :=
  let atual := s.counter
  let maxSz := maxSZ s.szarquivo
  let next := if maxSz ≥ atual then maxSz + 1 else atual + 1
  ({ idArquivo := next, gautoincAntes := atual, gautoincDepois := next,
     maxSzAntes := maxSz },
   { s with counter := next })

/-- JavaScript `String.prototype.trim()` on the character list of a string. -/
def jsTrim (s : String) : String :=
  String.mk (((s.data.dropWhile Char.isWhitespace).reverse.dropWhile
      Char.isWhitespace).reverse)

/-- `rawCpf.replace(/\D/g, "")` (`main.ts`): strip every non-digit. -/
def normalizeCpf (s : String) : String :=
  String.mk (s.data.filter Char.isDigit)

/-- The row shape returned by the `SZPACIENTE`/`SZATENDIMENTO` query in
`buscarPacienteEAtendimento`; each cast column may be SQL `NULL`. -/
structure RmRow where
  codPaciente : Option String
  codAtendimento : Option String
  deriving DecidableEq, Repr

/-- `buscarPacienteEAtendimento` (`main.ts`), with the query's result row
supplied as an oracle (`none` = empty recordset): returns `null` on empty
cpf, empty recordset, or blank (empty after trim) keys, else the trimmed
key pair. -/
def buscarPacienteEAtendimento (queryRow : Option RmRow) (cpf : String) :
    Option (String × String) :=
  if cpf = "" then none
  else
    match queryRow with
    | none => none
    | some row =>
      let codPaciente := jsTrim (row.codPaciente.getD "")
      let codAtendimento := jsTrim (row.codAtendimento.getD "")
      if codPaciente = "" ∨ codAtendimento = "" then none
      else some (codPaciente, codAtendimento)

/-- One step of the `matchingPdfs` filter callback (`main.ts`): whether the
pdf passes, together with the error records the callback logs.  The checks
run in source order: type tag, owning procedure, `created_at` presence,
then the 24h window lower bound `dt >= since`.  There is no upper bound
check on `dt`. -/
def filterPdfStep (since : Int) (procId : Nat) (patient : PatientData)
    (p : PdfInfo) : Bool × List LogEntry :=
  if p.type ≠ "TRANS" then (false, [])
  else if p.procedure_id ≠ procId then (false, [])
  else
    match p.created_at with
    | none => (false, [⟨Reason.NO_CREATED_AT, patient.id, p.id, procId⟩])
    | some t => (decide (since ≤ t), [])

/-- `(patient.pdf ?? []).filter(...)` with its logging side effects. -/
def filterPdfs (since : Int) (procId : Nat) (patient : PatientData) :
    List PdfInfo → List PdfInfo × List LogEntry
  | [] => ([], [])
  | p :: ps =>
    let step := filterPdfStep since procId patient p
    let rest := filterPdfs since procId patient ps
    ((if step.1 then p :: rest.1 else rest.1), step.2 ++ rest.2)

/-- Sort key of the `.sort` comparator: `DateTime.fromISO(created_at).toMillis()`. -/
def createdKey (p : PdfInfo) : Int :=
  p.created_at.getD 0

/-- Insertion step for the ascending `created_at` sort. -/
def insertByCreated (p : PdfInfo) : List PdfInfo → List PdfInfo
  | [] => [p]
  | q :: qs =>
    if createdKey p ≤ createdKey q then p :: q :: qs
    else q :: insertByCreated p qs

/-- The `.sort((a, b) => aMillis - bMillis)` step: ascending by `created_at`. -/
def sortByCreated (l : List PdfInfo) : List PdfInfo :=
  l.foldr insertByCreated []

/-- Fault oracle for the SQL statements of one document's transaction:
whether the reservation query, the `SZARQUIVO` insert, or the post-commit
`ZMDIDAXREG` insert throws. -/
structure Faults where
  reserveFails : Bool
  insertFails : Bool
  zmdInsertFails : Bool
  deriving DecidableEq, Repr

/-- Per-document external environment: the RM resolver row for the
patient's cpf, the result of `fetchPdfAsBase64` (`none` = download failed),
and the SQL fault oracle. -/
structure DocEnv where
  resolverRow : Option RmRow
  download : Option String
  faults : Faults
  deriving Repr

/-- Mutable run state of `main`: the database plus the success/skip
counters and the error log. -/
structure RunState where
  db : DBState
  zmdCount : Nat
  szCount : Nat
  pulados : Nat
  log : List LogEntry
  deriving DecidableEq, Repr

/-- Observable database events of one document's processing, used to state
ordering properties between the storage insert, the commit and the dedup
marker insert. -/
inductive Event where
  | reserve (idArquivo : Int)
  | szInsert (docId : Nat) (idArquivo : Int)
  | commit (docId : Nat)
  | rollback
  | zmdInsert (docId : Nat)
  deriving DecidableEq, Repr

/-- Body of the `for (const pdf of matchingPdfs)` loop in `main` for a
single pdf: dedup probe against `ZMDIDAXREG`, cpf check, RM resolution,
the (dead) blank-keys re-check, download, then the transaction
(reservation + `SZARQUIVO` insert + commit) and the post-commit
`ZMDIDAXREG` insert.  A fault during reservation or insert rolls the
transaction back (the pre-transaction `DBState` is kept); a fault in the
post-commit marker insert keeps the committed storage row.  Returns the
new run state and the trace of database events. -/
def processDoc (patient : PatientData) (procId : Nat) (pdf : PdfInfo)
    (env : DocEnv) (st : RunState) : RunState × List Event :=
  let rawCpf := patient.cpf.getD ""
  let cpf := normalizeCpf rawCpf
  if pdf.id ∈ st.db.zmd then
    ({ st with pulados := st.pulados + 1 }, [])
  else if cpf = "" then
    ({ st with log := st.log ++ [⟨Reason.NO_CPF, patient.id, pdf.id, procId⟩] },
     [])
  else
    match buscarPacienteEAtendimento env.resolverRow cpf with
    | none =>
      ({ st with
          log := st.log ++ [⟨Reason.NO_ATENDIMENTO, patient.id, pdf.id, procId⟩] },
       [])
    | some (codPaciente, codAtendimento) =>
      let codPacStr := jsTrim codPaciente
      let codAtdStr := jsTrim codAtendimento
      if codPacStr = "" ∨ codAtdStr = "" then
        ({ st with
            log := st.log ++ [⟨Reason.RM_KEYS_EMPTY, patient.id, pdf.id, procId⟩] },
         [])
      else
        match env.download with
        | none =>
          ({ st with
              log := st.log ++ [⟨Reason.DOWNLOAD_FAIL, patient.id, pdf.id, procId⟩] },
           [])
        | some base64 =>
          if env.faults.reserveFails then
            ({ st with
                log := st.log ++ [⟨Reason.SQL_FAIL, patient.id, pdf.id, procId⟩] },
             [Event.rollback])
          else
            let reserva := reservarProximoIdArquivo st.db
            if env.faults.insertFails then
              ({ st with
                  log := st.log ++ [⟨Reason.SQL_FAIL, patient.id, pdf.id, procId⟩] },
               [Event.reserve reserva.1.idArquivo, Event.rollback])
            else
              let newRow : StorageRow :=
                { idArquivo := reserva.1.idArquivo
                  codPaciente := codPacStr
                  codAtendimento := codAtdStr
                  nomeArquivo := "ANEXO_PEP_AXREG" ++ toString reserva.1.idArquivo ++ ".pdf"
                  descricao := "ANEXO_PEP_AXREG" ++ toString pdf.id
                  arquivo := base64 }
              let committed : DBState :=
                { reserva.2 with szarquivo := reserva.2.szarquivo ++ [newRow] }
              if env.faults.zmdInsertFails then
                ({ st with
                    db := committed
                    log := st.log ++ [⟨Reason.SQL_FAIL, patient.id, pdf.id, procId⟩] },
                 [Event.reserve reserva.1.idArquivo,
                  Event.szInsert pdf.id reserva.1.idArquivo,
                  Event.commit pdf.id])
              else
                ({ st with
                    db := { committed with zmd := committed.zmd ++ [pdf.id] }
                    zmdCount := st.zmdCount + 1
                    szCount := st.szCount + 1 },
                 [Event.reserve reserva.1.idArquivo,
                  Event.szInsert pdf.id reserva.1.idArquivo,
                  Event.commit pdf.id,
                  Event.zmdInsert pdf.id])

/-- One document-processing task: the patient and procedure context of a
pdf plus its external environment. -/
structure DocTask where
  patient : PatientData
  procId : Nat
  pdf : PdfInfo
  env : DocEnv

/-- Sequential processing of a list of documents (the `for` loop of `main`
and, across procedures, the per-task sequencing), concatenating traces. -/
def runDocs : List DocTask → RunState → RunState × List Event
  | [], st => (st, [])
  | t :: ts, st =>
    let r := processDoc t.patient t.procId t.pdf t.env st
    let rest := runDocs ts r.1
    (rest.1, r.2 ++ rest.2)

/-- Per-procedure external environment: the patient data available for the
procedure (after `procedure.patientData ?? fetchPatient(...)`; `none` =
both absent) and the per-pdf environment, keyed by pdf id. -/
structure ProcEnv where
  patient : Option PatientData
  docEnv : Nat → DocEnv

/-- Body of the `procedures.map` callback in `main` for one procedure:
the `if (!procedure.patient_id) return` guard (JS falsiness: `null` and
`0` both return, silently), the patient lookup, the pdf filter with its
logging, the ascending sort, and the per-pdf loop. -/
def processProcedure (since : Int) (proc : Procedure) (env : ProcEnv)
    (st : RunState) : RunState × List Event :=
  match proc.patient_id with
  | none => (st, [])
  | some pid =>
    if pid = 0 then (st, [])
    else
      match env.patient with
      | none => (st, [])
      | some patient =>
        let filtered := filterPdfs since proc.id patient (patient.pdf.getD [])
        let matching := sortByCreated filtered.1
        let st1 : RunState := { st with log := st.log ++ filtered.2 }
        runDocs (matching.map fun p => ⟨patient, proc.id, p, env.docEnv p.id⟩) st1

/-- Trace well-formedness checker for the dedup ordering invariant: every
`commit d` must be preceded by `szInsert d _` and every `zmdInsert d` by
`commit d`. -/
def dedupOrderedAux (inserted committed : List Nat) : List Event → Bool
  | [] => true
  | Event.szInsert d _ :: tr => dedupOrderedAux (d :: inserted) committed tr
  | Event.commit d :: tr =>
    decide (d ∈ inserted) && dedupOrderedAux inserted (d :: committed) tr
  | Event.zmdInsert d :: tr =>
    decide (d ∈ committed) && dedupOrderedAux inserted committed tr
  | _ :: tr => dedupOrderedAux inserted committed tr

/-- A trace is dedup-ordered when the checker accepts it from empty sets. -/
def dedupOrdered (tr : List Event) : Bool :=
  dedupOrderedAux [] [] tr

/-- Modelled from the claim's words (C1), for comparison with the source
filter: eligibility requiring type, procedure, presence, and the window
`now - 24h ≤ T ≤ now` with both boundaries inclusive. -/
def claimedEligible (now windowMs : Int) (procId : Nat) (p : PdfInfo) : Bool :=
  p.type = "TRANS" && p.procedure_id = procId &&
    match p.created_at with
    | none => false
    | some t => decide (now - windowMs ≤ t) && decide (t ≤ now)

end AxReg

namespace AxReg

/-- sanity: counter behind the physical maximum still yields a fresh id. -/
example : (reservarProximoIdArquivo ⟨3, [⟨7, "", "", "", "", ""⟩], []⟩).1.idArquivo = 8 := by
  decide

/-- sanity: counter ahead of the physical maximum. -/
example : (reservarProximoIdArquivo ⟨10, [⟨7, "", "", "", "", ""⟩], []⟩).1.idArquivo = 11 := by
  decide

/-- sanity: cpf normalization strips punctuation. -/
example : normalizeCpf "123.456.789-09" = "12345678909" := by decide

/-- sanity: jsTrim trims both sides. -/
example : jsTrim "  a b " = "a b" := by decide

end AxReg

/-- **C2.** The identifier reservation returns
`next = max(currentMax, currentCounter) + 1`, which is strictly greater than
both the prior counter value and the prior physical maximum, and the
post-state counter equals the returned identifier. -/
theorem C2_reservation_fresh (s : AxReg.DBState) :
    (AxReg.reservarProximoIdArquivo s).1.idArquivo
        = max (AxReg.maxSZ s.szarquivo) s.counter + 1
    ∧ s.counter < (AxReg.reservarProximoIdArquivo s).1.idArquivo
    ∧ AxReg.maxSZ s.szarquivo < (AxReg.reservarProximoIdArquivo s).1.idArquivo
    ∧ (AxReg.reservarProximoIdArquivo s).2.counter
        = (AxReg.reservarProximoIdArquivo s).1.idArquivo := by
  unfold AxReg.reservarProximoIdArquivo
  dsimp only
  rw [max_def]
  constructor
  · split <;> split <;> omega
  · refine ⟨?_, ?_, rfl⟩ <;> split <;> omega

/-- **C1 counterexample.** The claim's eligibility predicate requires
`T ≤ now`, but the source filter checks only `dt >= since`: a document
created 1ms after the reference instant (`now = 0`, window 24h, so
`since = -86400000`) passes the source filter while the claimed predicate
rejects it. -/
theorem C1_window_counterexample :
    (AxReg.filterPdfStep (-86400000) 5 ⟨10, "P", some "11144477735", none⟩
        ⟨1, 5, "doc", "TRANS", some 1⟩).1 = true
    ∧ AxReg.claimedEligible 0 86400000 5 ⟨1, 5, "doc", "TRANS", some 1⟩ = false := by
  decide

/-- **C1 (amended).** A document is eligible iff its type tag is `TRANS`,
its procedure reference equals the current procedure's identifier, its
creation timestamp is present, and `since ≤ T` (lower boundary inclusive);
there is no upper-bound check, so `T` may exceed the reference instant. -/
theorem C1_eligibility_iff (since : Int) (procId : Nat)
    (patient : AxReg.PatientData) (p : AxReg.PdfInfo) :
    (AxReg.filterPdfStep since procId patient p).1 = true ↔
      (p.type = "TRANS" ∧ p.procedure_id = procId
        ∧ ∃ t, p.created_at = some t ∧ since ≤ t) := by
  rcases p with ⟨pdfId, pid, nm, ty, created⟩
  unfold AxReg.filterPdfStep
  dsimp only
  by_cases hty : ty = "TRANS"
  · by_cases hpid : pid = procId
    · cases created with
      | none => simp [hty, hpid]
      | some t => simp [hty, hpid]
    · simp [hty, hpid]
  · simp [hty]

/-- **C5 counterexample.** A document lacking a creation timestamp whose
type tag is not `TRANS` is silently filtered: the run keeps an empty error
log, so no `NO_CREATED_AT` (or any) record is emitted for it. -/
theorem C5_silent_drop_counterexample :
    (AxReg.processProcedure 0 ⟨5, some 7⟩
        ⟨some ⟨10, "P", some "11144477735", some [⟨1, 5, "x", "OTHER", none⟩]⟩,
         fun _ => ⟨none, none, ⟨false, false, false⟩⟩⟩
        ⟨⟨0, [], []⟩, 0, 0, 0, []⟩).1.log = []
    ∧ (AxReg.filterPdfStep 0 5 ⟨10, "P", some "11144477735", none⟩
        ⟨1, 5, "x", "OTHER", none⟩) = (false, []) := by
  constructor
  · rfl
  · decide

/-- **C5 (amended).** A document lacking a creation timestamp that passes
the type-tag and owning-procedure checks is excluded from eligibility and
a `NO_CREATED_AT` record is emitted for it; a document lacking a timestamp
that fails those earlier checks is excluded silently. -/
theorem C5_missing_timestamp_logged (since : Int) (procId : Nat)
    (patient : AxReg.PatientData) (p : AxReg.PdfInfo)
    (h1 : p.created_at = none) (h2 : p.type = "TRANS")
    (h3 : p.procedure_id = procId) :
    AxReg.filterPdfStep since procId patient p
      = (false, [⟨AxReg.Reason.NO_CREATED_AT, patient.id, p.id, procId⟩]) := by
  unfold AxReg.filterPdfStep
  simp [h1, h2, h3]

/-- Witness for `C5_missing_timestamp_logged` at a concrete input. -/
theorem C5_missing_timestamp_logged_witness :
    ((⟨1, 5, "x", "TRANS", none⟩ : AxReg.PdfInfo).created_at = none
      ∧ (⟨1, 5, "x", "TRANS", none⟩ : AxReg.PdfInfo).type = "TRANS"
      ∧ (⟨1, 5, "x", "TRANS", none⟩ : AxReg.PdfInfo).procedure_id = 5)
    ∧ AxReg.filterPdfStep 0 5 ⟨10, "P", none, none⟩ ⟨1, 5, "x", "TRANS", none⟩
        = (false, [⟨AxReg.Reason.NO_CREATED_AT, 10, 1, 5⟩]) :=
  ⟨⟨rfl, rfl, rfl⟩,
   C5_missing_timestamp_logged 0 5 ⟨10, "P", none, none⟩
     ⟨1, 5, "x", "TRANS", none⟩ rfl rfl rfl⟩

/-- **C10.** The filter evaluates the type tag first, the owning procedure
second and the timestamp presence third: a `NO_CREATED_AT` record is
emitted only when type and procedure already match, while a document
missing its timestamp whose type or procedure does not match is filtered
silently with no record. -/
theorem C10_filter_check_order (since : Int) (procId : Nat)
    (patient : AxReg.PatientData) (pA pB pC : AxReg.PdfInfo)
    (hA1 : pA.created_at = none) (hA2 : pA.type = "TRANS")
    (hA3 : pA.procedure_id = procId)
    (hB : pB.type ≠ "TRANS")
    (hC1 : pC.type = "TRANS") (hC2 : pC.procedure_id ≠ procId) :
    AxReg.filterPdfStep since procId patient pA
        = (false, [⟨AxReg.Reason.NO_CREATED_AT, patient.id, pA.id, procId⟩])
    ∧ AxReg.filterPdfStep since procId patient pB = (false, [])
    ∧ AxReg.filterPdfStep since procId patient pC = (false, []) := by
  unfold AxReg.filterPdfStep
  refine ⟨?_, ?_, ?_⟩
  · simp [hA1, hA2, hA3]
  · simp [hB]
  · simp [hC1, hC2]

/-- Witness for `C10_filter_check_order` at concrete inputs: one missing
timestamp with matching type and procedure (logged), one wrong type and
one wrong procedure, both missing timestamps (silent). -/
theorem C10_filter_check_order_witness :
    ((⟨1, 5, "a", "TRANS", none⟩ : AxReg.PdfInfo).created_at = none
      ∧ (⟨1, 5, "a", "TRANS", none⟩ : AxReg.PdfInfo).type = "TRANS"
      ∧ (⟨1, 5, "a", "TRANS", none⟩ : AxReg.PdfInfo).procedure_id = 5
      ∧ (⟨2, 5, "b", "OTHER", none⟩ : AxReg.PdfInfo).type ≠ "TRANS"
      ∧ (⟨3, 6, "c", "TRANS", none⟩ : AxReg.PdfInfo).type = "TRANS"
      ∧ (⟨3, 6, "c", "TRANS", none⟩ : AxReg.PdfInfo).procedure_id ≠ 5)
    ∧ (AxReg.filterPdfStep 0 5 ⟨10, "P", none, none⟩ ⟨1, 5, "a", "TRANS", none⟩
          = (false, [⟨AxReg.Reason.NO_CREATED_AT, 10, 1, 5⟩])
        ∧ AxReg.filterPdfStep 0 5 ⟨10, "P", none, none⟩ ⟨2, 5, "b", "OTHER", none⟩
          = (false, [])
        ∧ AxReg.filterPdfStep 0 5 ⟨10, "P", none, none⟩ ⟨3, 6, "c", "TRANS", none⟩
          = (false, [])) :=
  ⟨⟨rfl, rfl, rfl, by decide, rfl, by decide⟩,
   C10_filter_check_order 0 5 ⟨10, "P", none, none⟩
     ⟨1, 5, "a", "TRANS", none⟩ ⟨2, 5, "b", "OTHER", none⟩
     ⟨3, 6, "c", "TRANS", none⟩ rfl rfl rfl (by decide) rfl (by decide)⟩

/-- Helper: one document's processing either leaves both success counters
unchanged or increments both by one. -/
theorem processDoc_counts (patient : AxReg.PatientData) (procId : Nat)
    (pdf : AxReg.PdfInfo) (env : AxReg.DocEnv) (st : AxReg.RunState) :
    ((AxReg.processDoc patient procId pdf env st).1.zmdCount = st.zmdCount
      ∧ (AxReg.processDoc patient procId pdf env st).1.szCount = st.szCount)
    ∨ ((AxReg.processDoc patient procId pdf env st).1.zmdCount = st.zmdCount + 1
      ∧ (AxReg.processDoc patient procId pdf env st).1.szCount = st.szCount + 1) := by
  simp only [AxReg.processDoc]
  repeat' split
  all_goals try (left; exact ⟨rfl, rfl⟩)
  all_goals right; exact ⟨rfl, rfl⟩

/-- Helper: sequential processing preserves equality of the two success
counters. -/
theorem runDocs_counts_eq (ts : List AxReg.DocTask) (st : AxReg.RunState)
    (h : st.zmdCount = st.szCount) :
    (AxReg.runDocs ts st).1.zmdCount = (AxReg.runDocs ts st).1.szCount := by
  induction ts generalizing st with
  | nil => simpa [AxReg.runDocs]
  | cons t ts ih =>
    simp only [AxReg.runDocs]
    apply ih
    rcases processDoc_counts t.patient t.procId t.pdf t.env st with ⟨h1, h2⟩ | ⟨h1, h2⟩ <;>
      omega

/-- **C3.** In every per-document execution trace, the dedup-marker insert
(`zmdInsert`) occurs only after the commit of the transaction containing
the storage insert (`szInsert` then `commit`), so a `DedupRecord` never
exists without a prior committed `StorageRecord`; and the converse state is
reachable: when the post-commit marker insert throws, the run ends with a
committed storage row and no dedup row for that document. -/
theorem C3_marker_after_commit (patient : AxReg.PatientData) (procId : Nat)
    (pdf : AxReg.PdfInfo) (env : AxReg.DocEnv) (st : AxReg.RunState) :
    AxReg.dedupOrdered (AxReg.processDoc patient procId pdf env st).2 = true
    ∧ ((AxReg.processDoc ⟨10, "Ana", some "123.456.789-09", none⟩ 5
          ⟨42, 5, "doc", "TRANS", some 0⟩
          ⟨some ⟨some "P1", some "A1"⟩, some "QkFTRTY0", ⟨false, false, true⟩⟩
          ⟨⟨100, [], []⟩, 0, 0, 0, []⟩).1.db.szarquivo.length = 1
        ∧ (AxReg.processDoc ⟨10, "Ana", some "123.456.789-09", none⟩ 5
          ⟨42, 5, "doc", "TRANS", some 0⟩
          ⟨some ⟨some "P1", some "A1"⟩, some "QkFTRTY0", ⟨false, false, true⟩⟩
          ⟨⟨100, [], []⟩, 0, 0, 0, []⟩).1.db.zmd = []
        ∧ (AxReg.processDoc ⟨10, "Ana", some "123.456.789-09", none⟩ 5
          ⟨42, 5, "doc", "TRANS", some 0⟩
          ⟨some ⟨some "P1", some "A1"⟩, some "QkFTRTY0", ⟨false, false, true⟩⟩
          ⟨⟨100, [], []⟩, 0, 0, 0, []⟩).2
          = [AxReg.Event.reserve 101, AxReg.Event.szInsert 42 101,
             AxReg.Event.commit 42]) := by
  constructor
  · simp only [AxReg.processDoc, AxReg.dedupOrdered]
    repeat' split
    all_goals try rfl
    all_goals simp [AxReg.dedupOrderedAux]
  · refine ⟨?_, ?_, ?_⟩ <;> decide

/-- **C4.** If the reservation query or the storage insert throws, the
whole transaction is rolled back: the run state keeps the pre-transaction
database (the counter advance is not consumed, no storage row is added),
the document is skipped with a `SQL_FAIL` record appended, and processing
of the subsequent documents continues from that state. -/
theorem C4_rollback_on_sql_failure (patient : AxReg.PatientData)
    (procId : Nat) (pdf : AxReg.PdfInfo) (env : AxReg.DocEnv)
    (st : AxReg.RunState) (rest : List AxReg.DocTask) (pk ak b : String)
    (hdup : pdf.id ∉ st.db.zmd)
    (hcpf : AxReg.normalizeCpf (patient.cpf.getD "") ≠ "")
    (hres : AxReg.buscarPacienteEAtendimento env.resolverRow
        (AxReg.normalizeCpf (patient.cpf.getD "")) = some (pk, ak))
    (hpk : AxReg.jsTrim pk ≠ "") (hak : AxReg.jsTrim ak ≠ "")
    (hdl : env.download = some b)
    (hfault : env.faults.reserveFails = true ∨ env.faults.insertFails = true) :
    (AxReg.processDoc patient procId pdf env st).1
        = { st with
            log := st.log ++ [⟨AxReg.Reason.SQL_FAIL, patient.id, pdf.id, procId⟩] }
    ∧ (AxReg.runDocs (⟨patient, procId, pdf, env⟩ :: rest) st).1
        = (AxReg.runDocs rest (AxReg.processDoc patient procId pdf env st).1).1 := by
  refine ⟨?_, rfl⟩
  simp only [AxReg.processDoc]
  rw [if_neg hdup, if_neg hcpf, hres]
  dsimp only
  rw [if_neg (not_or.mpr ⟨hpk, hak⟩), hdl]
  cases hr : env.faults.reserveFails with
  | false =>
    have hi : env.faults.insertFails = true := by
      rcases hfault with hf | hf
      · exact absurd hf (by simp [hr])
      · exact hf
    simp [hr, hi]
  | true => simp [hr]

/-- Witness for `C4_rollback_on_sql_failure` at a concrete input where the
storage insert throws. -/
theorem C4_rollback_on_sql_failure_witness :
    ((43 : Nat) ∉ ([] : List Nat)
      ∧ AxReg.normalizeCpf ((some "123.456.789-09" : Option String).getD "") ≠ ""
      ∧ AxReg.buscarPacienteEAtendimento (some ⟨some "P1", some "A1"⟩)
          (AxReg.normalizeCpf ((some "123.456.789-09" : Option String).getD ""))
          = some ("P1", "A1")
      ∧ AxReg.jsTrim "P1" ≠ "" ∧ AxReg.jsTrim "A1" ≠ ""
      ∧ (false = true ∨ true = true))
    ∧ (AxReg.processDoc ⟨10, "Ana", some "123.456.789-09", none⟩ 5
          ⟨43, 5, "doc", "TRANS", some 0⟩
          ⟨some ⟨some "P1", some "A1"⟩, some "B64", ⟨false, true, false⟩⟩
          ⟨⟨100, [], []⟩, 0, 0, 0, []⟩).1
        = { db := ⟨100, [], []⟩, zmdCount := 0, szCount := 0, pulados := 0,
            log := [⟨AxReg.Reason.SQL_FAIL, 10, 43, 5⟩] } :=
  ⟨⟨by decide, by decide, by decide, by decide, by decide, Or.inr rfl⟩,
   (C4_rollback_on_sql_failure ⟨10, "Ana", some "123.456.789-09", none⟩ 5
      ⟨43, 5, "doc", "TRANS", some 0⟩
      ⟨some ⟨some "P1", some "A1"⟩, some "B64", ⟨false, true, false⟩⟩
      ⟨⟨100, [], []⟩, 0, 0, 0, []⟩ [] "P1" "A1" "B64"
      (by decide) (by decide) (by decide) (by decide) (by decide) rfl
      (Or.inr rfl)).1⟩

/-- **C6.** National-ID normalization strips every non-digit character
(`"123.456.789-09"` → `"12345678909"`); an input with no digit normalizes
to the empty string, and a document whose patient's normalized cpf is
empty (and which is not already dedup-marked) is skipped with a `NO_CPF`
record logged. -/
theorem C6_cpf_normalization (s : String) (patient : AxReg.PatientData)
    (procId : Nat) (pdf : AxReg.PdfInfo) (env : AxReg.DocEnv)
    (st : AxReg.RunState)
    (hnd : ∀ c ∈ s.data, c.isDigit = false)
    (hdup : pdf.id ∉ st.db.zmd)
    (hcpf : AxReg.normalizeCpf (patient.cpf.getD "") = "") :
    AxReg.normalizeCpf "123.456.789-09" = "12345678909"
    ∧ AxReg.normalizeCpf s = ""
    ∧ AxReg.processDoc patient procId pdf env st
        = ({ st with
              log := st.log ++ [⟨AxReg.Reason.NO_CPF, patient.id, pdf.id, procId⟩] },
           []) := by
  refine ⟨by decide, ?_, ?_⟩
  · unfold AxReg.normalizeCpf
    have h : s.data.filter Char.isDigit = [] := by
      rw [List.filter_eq_nil_iff]
      intro c hc
      simp [hnd c hc]
    rw [h]
  · simp only [AxReg.processDoc]
    rw [if_neg hdup, if_pos hcpf]

/-- Witness for `C6_cpf_normalization`: an all-punctuation cpf on a
patient with no registered cpf. -/
theorem C6_cpf_normalization_witness :
    ((∀ c ∈ ("..-" : String).data, c.isDigit = false)
      ∧ (1 : Nat) ∉ ([] : List Nat)
      ∧ AxReg.normalizeCpf ((none : Option String).getD "") = "")
    ∧ (AxReg.normalizeCpf "123.456.789-09" = "12345678909"
        ∧ AxReg.normalizeCpf "..-" = ""
        ∧ AxReg.processDoc ⟨10, "Ana", none, none⟩ 5 ⟨1, 5, "doc", "TRANS", some 0⟩
            ⟨none, none, ⟨false, false, false⟩⟩ ⟨⟨0, [], []⟩, 0, 0, 0, []⟩
          = ({ db := ⟨0, [], []⟩, zmdCount := 0, szCount := 0, pulados := 0,
               log := [⟨AxReg.Reason.NO_CPF, 10, 1, 5⟩] }, [])) :=
  ⟨⟨by decide, by decide, by decide⟩,
   by
    have h := C6_cpf_normalization "..-" ⟨10, "Ana", none, none⟩ 5
      ⟨1, 5, "doc", "TRANS", some 0⟩ ⟨none, none, ⟨false, false, false⟩⟩
      ⟨⟨0, [], []⟩, 0, 0, 0, []⟩ (by decide) (by decide) (by decide)
    simpa using h⟩

/-- **C7 counterexample.** When the resolution query returns a row whose
patient key is blank after trimming, `buscarPacienteEAtendimento` itself
returns `null`, so the pipeline logs the document with `NO_ATENDIMENTO`
(the no-local-match reason), not with the distinct `RM_KEYS_EMPTY` reason
the claim requires. -/
theorem C7_blank_keys_counterexample :
    AxReg.buscarPacienteEAtendimento (some ⟨some "   ", some "A1"⟩) "12345678909"
        = none
    ∧ (AxReg.processDoc ⟨10, "Ana", some "123.456.789-09", none⟩ 5
          ⟨44, 5, "doc", "TRANS", some 0⟩
          ⟨some ⟨some "   ", some "A1"⟩, some "B64", ⟨false, false, false⟩⟩
          ⟨⟨100, [], []⟩, 0, 0, 0, []⟩).1.log
        = [⟨AxReg.Reason.NO_ATENDIMENTO, 10, 44, 5⟩] := by
  constructor
  · decide
  · decide

/-- **C7 (amended).** A document whose resolution query returns a row with
a blank (empty after trimming) patient or encounter key is skipped and
logged with the same `NO_ATENDIMENTO` (no-local-match) reason as an empty
recordset, because the resolver already treats blank keys as resolution
failure; the pipeline's `RM_KEYS_EMPTY` branch is not what fires. -/
theorem C7_blank_keys_no_atendimento (row : AxReg.RmRow)
    (patient : AxReg.PatientData) (procId : Nat) (pdf : AxReg.PdfInfo)
    (env : AxReg.DocEnv) (st : AxReg.RunState)
    (hblank : AxReg.jsTrim (row.codPaciente.getD "") = ""
      ∨ AxReg.jsTrim (row.codAtendimento.getD "") = "")
    (hrow : env.resolverRow = some row)
    (hdup : pdf.id ∉ st.db.zmd)
    (hcpf : AxReg.normalizeCpf (patient.cpf.getD "") ≠ "") :
    AxReg.buscarPacienteEAtendimento env.resolverRow
        (AxReg.normalizeCpf (patient.cpf.getD "")) = none
    ∧ AxReg.processDoc patient procId pdf env st
        = ({ st with
              log := st.log
                ++ [⟨AxReg.Reason.NO_ATENDIMENTO, patient.id, pdf.id, procId⟩] },
           []) := by
  have hb : AxReg.buscarPacienteEAtendimento env.resolverRow
      (AxReg.normalizeCpf (patient.cpf.getD "")) = none := by
    rw [hrow]
    unfold AxReg.buscarPacienteEAtendimento
    rw [if_neg hcpf]
    dsimp only
    rw [if_pos hblank]
  refine ⟨hb, ?_⟩
  simp only [AxReg.processDoc]
  rw [if_neg hdup, if_neg hcpf, hb]

/-- Witness for `C7_blank_keys_no_atendimento` at a concrete blank-key row. -/
theorem C7_blank_keys_no_atendimento_witness :
    ((AxReg.jsTrim ((some "   " : Option String).getD "") = ""
        ∨ AxReg.jsTrim ((some "A1" : Option String).getD "") = "")
      ∧ (44 : Nat) ∉ ([] : List Nat)
      ∧ AxReg.normalizeCpf ((some "123.456.789-09" : Option String).getD "") ≠ "")
    ∧ (AxReg.buscarPacienteEAtendimento (some ⟨some "   ", some "A1"⟩)
          (AxReg.normalizeCpf ((some "123.456.789-09" : Option String).getD ""))
          = none
        ∧ AxReg.processDoc ⟨10, "Ana", some "123.456.789-09", none⟩ 5
            ⟨44, 5, "doc", "TRANS", some 0⟩
            ⟨some ⟨some "   ", some "A1"⟩, some "B64", ⟨false, false, false⟩⟩
            ⟨⟨100, [], []⟩, 0, 0, 0, []⟩
          = ({ db := ⟨100, [], []⟩, zmdCount := 0, szCount := 0, pulados := 0,
               log := [⟨AxReg.Reason.NO_ATENDIMENTO, 10, 44, 5⟩] }, [])) :=
  ⟨⟨Or.inl (by decide), by decide, by decide⟩,
   by
    have h := C7_blank_keys_no_atendimento ⟨some "   ", some "A1"⟩
      ⟨10, "Ana", some "123.456.789-09", none⟩ 5 ⟨44, 5, "doc", "TRANS", some 0⟩
      ⟨some ⟨some "   ", some "A1"⟩, some "B64", ⟨false, false, false⟩⟩
      ⟨⟨100, [], []⟩, 0, 0, 0, []⟩ (Or.inl (by decide)) rfl (by decide) (by decide)
    simpa using h⟩

/-- **C8 counterexample.** A procedure whose `patient_id` is `null` is
skipped by `if (!procedure.patient_id) return` with no error record: the
run state is returned unchanged (empty log stays empty). -/
theorem C8_missing_patient_counterexample :
    AxReg.processProcedure 0 ⟨7, none⟩
        ⟨none, fun _ => ⟨none, none, ⟨false, false, false⟩⟩⟩
        ⟨⟨0, [], []⟩, 0, 0, 0, []⟩
      = (⟨⟨0, [], []⟩, 0, 0, 0, []⟩, []) := rfl

/-- **C8 (amended).** Failures in the stated set other than a missing
patient ID produce durable error records (shown here for the download
failure stage, alongside the `NO_CPF`, `NO_ATENDIMENTO` and `SQL_FAIL`
cases established separately); a procedure whose patient reference is
absent is skipped silently, with no error record emitted. -/
theorem C8_failures_logged_except_missing_patient (since : Int)
    (proc : AxReg.Procedure) (env : AxReg.ProcEnv) (st : AxReg.RunState)
    (patient : AxReg.PatientData) (procId : Nat) (pdf : AxReg.PdfInfo)
    (denv : AxReg.DocEnv) (st2 : AxReg.RunState) (pk ak : String)
    (hnone : proc.patient_id = none)
    (hdup : pdf.id ∉ st2.db.zmd)
    (hcpf : AxReg.normalizeCpf (patient.cpf.getD "") ≠ "")
    (hres : AxReg.buscarPacienteEAtendimento denv.resolverRow
        (AxReg.normalizeCpf (patient.cpf.getD "")) = some (pk, ak))
    (hpk : AxReg.jsTrim pk ≠ "") (hak : AxReg.jsTrim ak ≠ "")
    (hdl : denv.download = none) :
    AxReg.processProcedure since proc env st = (st, [])
    ∧ AxReg.processDoc patient procId pdf denv st2
        = ({ st2 with
              log := st2.log
                ++ [⟨AxReg.Reason.DOWNLOAD_FAIL, patient.id, pdf.id, procId⟩] },
           []) := by
  constructor
  · simp [AxReg.processProcedure, hnone]
  · simp only [AxReg.processDoc]
    rw [if_neg hdup, if_neg hcpf, hres]
    dsimp only
    rw [if_neg (not_or.mpr ⟨hpk, hak⟩), hdl]

/-- Witness for `C8_failures_logged_except_missing_patient` at concrete
inputs: a procedure without patient reference and a document whose
download fails. -/
theorem C8_failures_logged_witness :
    ((⟨7, none⟩ : AxReg.Procedure).patient_id = none
      ∧ (46 : Nat) ∉ ([] : List Nat)
      ∧ AxReg.normalizeCpf ((some "123.456.789-09" : Option String).getD "") ≠ ""
      ∧ AxReg.buscarPacienteEAtendimento (some ⟨some "P1", some "A1"⟩)
          (AxReg.normalizeCpf ((some "123.456.789-09" : Option String).getD ""))
          = some ("P1", "A1")
      ∧ AxReg.jsTrim "P1" ≠ "" ∧ AxReg.jsTrim "A1" ≠ "")
    ∧ (AxReg.processProcedure 0 ⟨7, none⟩
          ⟨none, fun _ => ⟨none, none, ⟨false, false, false⟩⟩⟩
          ⟨⟨0, [], []⟩, 0, 0, 0, []⟩
        = (⟨⟨0, [], []⟩, 0, 0, 0, []⟩, [])
      ∧ AxReg.processDoc ⟨10, "Ana", some "123.456.789-09", none⟩ 5
          ⟨46, 5, "doc", "TRANS", some 0⟩
          ⟨some ⟨some "P1", some "A1"⟩, none, ⟨false, false, false⟩⟩
          ⟨⟨100, [], []⟩, 0, 0, 0, []⟩
        = ({ db := ⟨100, [], []⟩, zmdCount := 0, szCount := 0, pulados := 0,
             log := [⟨AxReg.Reason.DOWNLOAD_FAIL, 10, 46, 5⟩] }, [])) :=
  ⟨⟨rfl, by decide, by decide, by decide, by decide, by decide⟩,
   by
    have h := C8_failures_logged_except_missing_patient 0 ⟨7, none⟩
      ⟨none, fun _ => ⟨none, none, ⟨false, false, false⟩⟩⟩
      ⟨⟨0, [], []⟩, 0, 0, 0, []⟩ ⟨10, "Ana", some "123.456.789-09", none⟩ 5
      ⟨46, 5, "doc", "TRANS", some 0⟩
      ⟨some ⟨some "P1", some "A1"⟩, none, ⟨false, false, false⟩⟩
      ⟨⟨100, [], []⟩, 0, 0, 0, []⟩ "P1" "A1" rfl (by decide) (by decide)
      (by decide) (by decide) (by decide) rfl
    simpa using h⟩

/-- **C9.** Starting from equal success counters, after any sequence of
document-processing steps the two counters are again equal (they are
incremented together only on the all-successful path), so they agree at
every intermediate point of a run; and when the post-commit dedup-marker
insert fails, the committed storage row is counted in neither counter and
a `SQL_FAIL` record is logged instead. -/
theorem C9_success_counters_equal (ts : List AxReg.DocTask)
    (st : AxReg.RunState) (h : st.zmdCount = st.szCount) :
    (AxReg.runDocs ts st).1.zmdCount = (AxReg.runDocs ts st).1.szCount
    ∧ ((AxReg.processDoc ⟨10, "Ana", some "123.456.789-09", none⟩ 5
          ⟨45, 5, "doc", "TRANS", some 0⟩
          ⟨some ⟨some "P1", some "A1"⟩, some "B64", ⟨false, false, true⟩⟩
          ⟨⟨100, [], []⟩, 0, 0, 0, []⟩).1.zmdCount = 0
        ∧ (AxReg.processDoc ⟨10, "Ana", some "123.456.789-09", none⟩ 5
          ⟨45, 5, "doc", "TRANS", some 0⟩
          ⟨some ⟨some "P1", some "A1"⟩, some "B64", ⟨false, false, true⟩⟩
          ⟨⟨100, [], []⟩, 0, 0, 0, []⟩).1.szCount = 0
        ∧ (AxReg.processDoc ⟨10, "Ana", some "123.456.789-09", none⟩ 5
          ⟨45, 5, "doc", "TRANS", some 0⟩
          ⟨some ⟨some "P1", some "A1"⟩, some "B64", ⟨false, false, true⟩⟩
          ⟨⟨100, [], []⟩, 0, 0, 0, []⟩).1.db.szarquivo.length = 1
        ∧ (AxReg.processDoc ⟨10, "Ana", some "123.456.789-09", none⟩ 5
          ⟨45, 5, "doc", "TRANS", some 0⟩
          ⟨some ⟨some "P1", some "A1"⟩, some "B64", ⟨false, false, true⟩⟩
          ⟨⟨100, [], []⟩, 0, 0, 0, []⟩).1.log
          = [⟨AxReg.Reason.SQL_FAIL, 10, 45, 5⟩]) := by
  refine ⟨runDocs_counts_eq ts st h, ?_, ?_, ?_, ?_⟩ <;> decide

/-- Witness for `C9_success_counters_equal` on a concrete run state. -/
theorem C9_success_counters_equal_witness :
    (0 = 0)
    ∧ (AxReg.runDocs [] ⟨⟨0, [], []⟩, 0, 0, 0, []⟩).1.zmdCount
        = (AxReg.runDocs [] ⟨⟨0, [], []⟩, 0, 0, 0, []⟩).1.szCount :=
  ⟨rfl, (C9_success_counters_equal [] ⟨⟨0, [], []⟩, 0, 0, 0, []⟩ rfl).1⟩
